import Mathlib

/-!
# Verification of the FSMate finite-state-machine runtime

Shallow embedding of `src/fsmate/_state.py`: state storage, transitions,
enter/exit/transition callbacks, and state-dependent dispatch, together with
theorems settling the specification's claims.

Modelling conventions:
* A Python `Enum` member is a value of an abstract type `σ` with decidable
  equality; the machine's closed State Set (`self._all_states`) is a `List σ`.
* An owner instance's mutable state relevant to the library is the backing
  attribute slot `'_' + attr_name` (present or absent), modelled as
  `Owner.attr : Option σ`.  Python's `None` state value, which
  `getattr(instance, '_' + name, self._initial_state)` can produce when
  `initial_state is None`, is modelled by `Option σ` results from reads.
* An externally supplied `StateStorage` implementation is an arbitrary pair of
  functions on owners (`ExtStateStorage`), mirroring the abstract base class.
* Callbacks are opaque identifiers of type `κ`; invoking a callback is
  modelled by appending a `CallbackEvent` (callback id, old state, new state)
  to the trace returned by the operation.  Every callback of one invocation
  receives the same owner instance, so the owner is not repeated per event.
* Raising a Python exception is modelled by returning `.error` of `PyError`;
  mutating methods return the updated owner on success, so an `.error` result
  also expresses that no mutation survived.
-/

/-- Python exceptions raised by `_state.py`. -/
inductive PyError where
  | impossibleTransition : PyError
  | valueError : String → PyError
  | attributeError : String → PyError
deriving DecidableEq, Repr

/-- The mutable per-instance data the library touches on an owner object:
the backing attribute slot `'_' + attr_name` (absent when never written). -/
structure Owner (σ : Type) where
  attr : Option σ
deriving DecidableEq, Repr

/-- An externally supplied `StateStorage` implementation: arbitrary
`get_state` / `set_state` behaviour over the owner (mirrors the abstract
base class `StateStorage`; `get_state` may raise, `set_state` rewrites the
owner). -/
structure ExtStateStorage (σ : Type) where
  get_state : Owner σ → Except PyError σ
  set_state : Owner σ → σ → Owner σ

/-- One callback invocation: callback identity plus the
`(old_state, new_state)` argument pair it was called with (the owner
argument is the single owner of the whole invocation).  `old_state` is an
`Option σ` because `_get_state` can produce Python `None`. -/
structure CallbackEvent (σ κ : Type) where
  cb : κ
  old_state : Option σ
  new_state : σ
deriving DecidableEq, Repr

/-- `StateTransition`'s declaration data: allowed sources, destination and
the transition-scoped callback list (`self._callbacks`, registration order).
Transitions produced by `StateDescriptor.transition` always carry a
`ProxyStateStorage` onto descriptor `_get_state` / `_force_set_state`, so the
storage field is implicit: invocation (`invokeTransition`) takes the owning
descriptor. -/
structure StateTransition (σ κ : Type) where
  source : List σ
  dest : σ
  callbacks : List κ
deriving DecidableEq, Repr

/-- `StateDescriptor`'s fields: the State Set, `initial_state`,
`state_storage`, `attr_name` (set by `__set_name__`), the created transitions
and the enter/exit callback registries (`defaultdict(set)`; the per-state set
is modelled as a list in some enumeration order, the spec leaves the order
across one set unspecified). -/
structure StateDescriptor (σ κ : Type) where
  all_states : List σ
  initial_state : Option σ
  state_storage : Option (ExtStateStorage σ)
  attr_name : Option String
  transitions : List (StateTransition σ κ)
  enter_state_callbacks : σ → List κ
  exit_state_callbacks : σ → List κ

namespace StateDescriptor

variable {σ κ : Type} [DecidableEq σ]

/-- `StateDescriptor.__init__`.  The Python guard
`if initial_state is None == state_storage is None:` is a chained
comparison, i.e. `(initial_state is None) and (None == state_storage) and
(state_storage is None)`, which is true exactly when both arguments are
`None`. -/
def init (states : List σ) (initial_state : Option σ)
    (state_storage : Option (ExtStateStorage σ)) :
    Except PyError (StateDescriptor σ κ) :=
  if initial_state.isNone && state_storage.isNone && state_storage.isNone then
    .error (.valueError "Expected only one: initial_state or state_storage")
  else
    .ok { all_states := states
          initial_state := initial_state
          state_storage := state_storage
          attr_name := none
          transitions := []
          enter_state_callbacks := fun _ => []
          exit_state_callbacks := fun _ => [] }

/-- The constructor guard the code intends (per its own error message
`'Expected only one: initial_state or state_storage'` and the spec):
raise unless exactly one of the two is supplied. -/
def initIntended (states : List σ) (initial_state : Option σ)
    (state_storage : Option (ExtStateStorage σ)) :
    Except PyError (StateDescriptor σ κ) :=
  if initial_state.isNone == state_storage.isNone then
    .error (.valueError "Expected only one: initial_state or state_storage")
  else
    .ok { all_states := states
          initial_state := initial_state
          state_storage := state_storage
          attr_name := none
          transitions := []
          enter_state_callbacks := fun _ => []
          exit_state_callbacks := fun _ => [] }

/-- `StateDescriptor.__set_name__`: binding to the owner type records the
attribute name. -/
def set_name (d : StateDescriptor σ κ) (attr_name : String) :
    StateDescriptor σ κ :=
  { d with attr_name := some attr_name }

/-- `StateDescriptor._get_state`.  With external storage, delegate; else
require `attr_name` (raise `ValueError` when unbound) and read
`getattr(instance, '_' + attr_name, self._initial_state)` — attribute slot
if present, else `initial_state` (which is Python `None` when unset, hence
the `Option σ` result). -/
def get_state (d : StateDescriptor σ κ) (o : Owner σ) :
    Except PyError (Option σ) :=
  match d.state_storage with
  | some st => (st.get_state o).map some
  | none =>
    match d.attr_name with
    | none => .error (.valueError "Cannot get state from unitialized descriptor")
    | some _ => .ok (o.attr.or d.initial_state)

/-- `StateDescriptor._force_set_state`: read the current state, write the
new state (external storage or attribute slot, raising `ValueError` when
unbound and storage-less), then fire exit callbacks of the old state and
enter callbacks of the new state, each with `(owner, old, new)`.  A Python
`None` current state indexes the `defaultdict` outside any registration, so
its exit set is empty. -/
def force_set_state (d : StateDescriptor σ κ) (o : Owner σ) (state : σ) :
    Except PyError (Owner σ × List (CallbackEvent σ κ)) :=
  match d.get_state o with
  | .error e => .error e
  | .ok current_state =>
    match (match d.state_storage with
           | some st => .ok (st.set_state o state)
           | none =>
             match d.attr_name with
             | none => .error (.valueError "Cannot set state via unitialized descriptor")
             | some _ => .ok { o with attr := some state }
           : Except PyError (Owner σ)) with
    | .error e => .error e
    | .ok o' =>
      let exit_events :=
        (match current_state with
         | some s => d.exit_state_callbacks s
         | none => []).map
          (fun c => CallbackEvent.mk c current_state state)
      let enter_events :=
        (d.enter_state_callbacks state).map
          (fun c => CallbackEvent.mk c current_state state)
      .ok (o', exit_events ++ enter_events)

/-- `StateDescriptor.__set__`: direct assignment always raises
`AttributeError`, whatever the descriptor, owner and value. -/
def set (_d : StateDescriptor σ κ) (_o : Owner σ) {V : Type} (_value : V) :
    Except PyError Unit :=
  .error (.attributeError "Cannot change state directly. Use transitions")

/-- `StateDescriptor.transition`: validate that the destination and every
source belong to the State Set (raise `ValueError` otherwise), then create
the `StateTransition` (empty callback list, proxy storage onto this
descriptor) and append it to `self._transitions`.  A single-state source is
already the one-element list (`if not isinstance(source, Collection)`
wrapping). -/
def transition (d : StateDescriptor σ κ) (source : List σ) (dest : σ) :
    Except PyError (StateDescriptor σ κ × StateTransition σ κ) :=
  if dest ∉ d.all_states then
    .error (.valueError "Destination state not found")
  else if source.any (fun s => decide (s ∉ d.all_states)) then
    .error (.valueError "Source state not found")
  else
    let t : StateTransition σ κ :=
      { source := source, dest := dest, callbacks := [] }
    .ok ({ d with transitions := d.transitions ++ [t] }, t)

end StateDescriptor

/-- `ProxyStateStorage(self._get_state, self._force_set_state)` as built by
`StateDescriptor.transition` and `StateDescriptor.dispatch`: a read
capability and a write capability onto the same descriptor (the write also
fires the exit/enter callbacks, see `force_set_state`). -/
structure ProxyStateStorage (σ κ : Type) where
  get_state : Owner σ → Except PyError (Option σ)
  set_state : Owner σ → σ → Except PyError (Owner σ × List (CallbackEvent σ κ))

/-- The proxy storage a descriptor hands to its transitions and
dispatchers. -/
def StateDescriptor.proxy {σ κ : Type} [DecidableEq σ]
    (d : StateDescriptor σ κ) : ProxyStateStorage σ κ :=
  { get_state := d.get_state, set_state := d.force_set_state }

/-- `StateDispatcher`: proxy storage, the State Set, the single fallback
handler and the state → handler dispatch table (a `dict`, modelled as an
association list).  Handlers take the owner and the (bundled) call
arguments and return a result (`H = Owner σ → α → β` at use sites). -/
structure StateDispatcher (σ κ H : Type) where
  state_storage : ProxyStateStorage σ κ
  all_states : List σ
  fallback : H
  dispatch_table : List (σ × H)

/-- The loop body of `StateDispatcher.register`: for each listed state in
order, raise `ValueError` if it is outside the State Set or already has a
handler in the table, else add the binding.  Python mutates
`self._dispatch_table` as it goes, so on failure the states already
processed keep their new bindings; the model therefore returns the final
table together with the raised error, if any. -/
def registerLoop {σ H : Type} [DecidableEq σ] (all_states : List σ) (func : H) :
    List σ → List (σ × H) → List (σ × H) × Option PyError
  | [], table => (table, none)
  | state :: rest, table =>
    if state ∉ all_states then
      (table, some (.valueError "Target state not found"))
    else if (table.lookup state).isSome then
      (table, some (.valueError "Function is already overloaded for state"))
    else
      registerLoop all_states func rest (table ++ [(state, func)])

/-- `StateDispatcher.register` (reached through
`StateDispatchedMethod.overload`): returns the dispatcher with its updated
table, plus the `ValueError` when registration failed. -/
def StateDispatcher.register {σ κ H : Type} [DecidableEq σ]
    (dp : StateDispatcher σ κ H) (func : H) (states : List σ) :
    StateDispatcher σ κ H × Option PyError :=
  let r := registerLoop dp.all_states func states dp.dispatch_table
  ({ dp with dispatch_table := r.1 }, r.2)

/-- `StateDispatcher._get_dispatched_func`:
`self._dispatch_table.get(state, self._fallback)`.  A Python `None` current
state is never a dict key, so it resolves to the fallback. -/
def StateDispatcher.get_dispatched_func {σ κ H : Type} [DecidableEq σ]
    (dp : StateDispatcher σ κ H) (state : Option σ) : H :=
  match state with
  | some s => (dp.dispatch_table.lookup s).getD dp.fallback
  | none => dp.fallback

/-- `StateDispatcher.dispatch` (reached through
`StateDispatchedMethod.__get__.dispatched_method`, which forwards
`(instance, *args)` unchanged): read the current state through the proxy
storage, resolve the handler, call it with `(owner, args)` and return its
result unmodified.  The owner is returned alongside to make the state frame
explicit: the body contains no `set_state` call, so the owner is unchanged.
(The stray debug `print` on the source line 140 is console output, out of
scope.) -/
def StateDispatcher.dispatch {σ κ α β : Type} [DecidableEq σ]
    (dp : StateDispatcher σ κ (Owner σ → α → β)) (o : Owner σ) (args : α) :
    Except PyError (Owner σ × β) :=
  match dp.state_storage.get_state o with
  | .error e => .error e
  | .ok current_state =>
    .ok (o, dp.get_dispatched_func current_state o args)

/-- `StateDescriptor.dispatch`: build a dispatcher over this descriptor's
proxy storage and State Set, with the decorated method as fallback and an
empty table. -/
def StateDescriptor.mkDispatcher {σ κ H : Type} [DecidableEq σ]
    (d : StateDescriptor σ κ) (method : H) : StateDispatcher σ κ H :=
  { state_storage := d.proxy
    all_states := d.all_states
    fallback := method
    dispatch_table := [] }

/-- `StateTransition.__get__._transition` for a transition created by a
descriptor (storage = `ProxyStateStorage(_get_state, _force_set_state)`):
read the current state, raise `ImpossibleTransitionError` unless it is a
declared source, else commit the destination through `_force_set_state`
(firing exit then enter callbacks) and finally fire the transition's own
callbacks in registration order with `(owner, old_state, dest)`.  Returns
the updated owner and the full callback trace. -/
def invokeTransition {σ κ : Type} [DecidableEq σ]
    (d : StateDescriptor σ κ) (t : StateTransition σ κ) (o : Owner σ) :
    Except PyError (Owner σ × List (CallbackEvent σ κ)) :=
  match d.get_state o with
  | .error e => .error e
  | .ok state =>
    if (match state with
        | some s => decide (s ∈ t.source)
        | none => false) then
      match d.force_set_state o t.dest with
      | .error e => .error e
      | .ok (o', events) =>
        .ok (o', events ++ t.callbacks.map
          (fun c => CallbackEvent.mk c state t.dest))
    else
      .error .impossibleTransition

/-! ## Concrete evaluation fixtures

A three-state machine (states `0, 1, 2` of type `Nat`), used to witness the
theorems on concrete inputs.  Callback identities are also `Nat`: `20, 21`
exit state `0`; `10` enters state `1`; `30, 31` are transition-scoped. -/

/-- Attribute-backed descriptor, initial state `0`, bound to attribute name
`"state"`. -/
def exampleDescriptor : StateDescriptor Nat Nat :=
  { all_states := [0, 1, 2]
    initial_state := some 0
    state_storage := none
    attr_name := some "state"
    transitions := []
    enter_state_callbacks := fun s => if s = 1 then [10] else []
    exit_state_callbacks := fun s => if s = 0 then [20, 21] else [] }

/-- A transition `0 → 1` of the fixture machine with two registered
transition callbacks. -/
def exampleTransition : StateTransition Nat Nat :=
  { source := [0], dest := 1, callbacks := [30, 31] }

/-- A self-loop transition `1 → 1` of the fixture machine. -/
def exampleSelfLoop : StateTransition Nat Nat :=
  { source := [1], dest := 1, callbacks := [30] }

/-- The fixture descriptor before `__set_name__` ran: unbound, no external
storage. -/
def unboundDescriptor : StateDescriptor Nat Nat :=
  { exampleDescriptor with attr_name := none }

/-- A concrete external storage implementation (reads the slot, raising
`AttributeError` when unset; writes the slot). -/
def exampleExtStorage : ExtStateStorage Nat :=
  { get_state := fun o =>
      match o.attr with
      | some s => .ok s
      | none => .error (.attributeError "attribute not set")
    set_state := fun o s => { o with attr := some s } }

/-- Fallback handler of the fixture dispatched method. -/
def exampleFallback : Owner Nat → Nat → Nat := fun _ n => n + 100

/-- Overload handler of the fixture dispatched method. -/
def exampleOverload : Owner Nat → Nat → Nat := fun _ n => n + 1

/-- Fixture dispatcher over the fixture descriptor's proxy storage, with
`exampleOverload` registered for state `1`. -/
def exampleDispatcher : StateDispatcher Nat Nat (Owner Nat → Nat → Nat) :=
  { state_storage := exampleDescriptor.proxy
    all_states := [0, 1, 2]
    fallback := exampleFallback
    dispatch_table := [(1, exampleOverload)] }

/-- Result classifier: did the operation raise a `ValueError` (the
configuration-error class of `_state.py`)? -/
def isValueError {X : Type} : Except PyError X → Bool
  | .error (.valueError _) => true
  | _ => false

/-! ## Helper lemmas -/

/-- `List.lookup` distributes over append, preferring the left table. -/
theorem lookup_append {σ H : Type} [DecidableEq σ]
    (l₁ l₂ : List (σ × H)) (s : σ) :
    (l₁ ++ l₂).lookup s = (l₁.lookup s).or (l₂.lookup s) := by
  induction l₁ with
  | nil => simp [List.lookup]
  | cons p rest ih =>
    rcases p with ⟨k, v⟩
    by_cases h : s = k
    · subst h
      simp [List.lookup]
    · have hb : (s == k) = false := beq_eq_false_iff_ne.mpr h
      simp [List.lookup, hb, ih]

/-- `_force_set_state` in attribute-backed bound configuration: writes the
slot and fires exit callbacks of the old state, then enter callbacks of the
new one. -/
theorem force_set_state_attr {σ κ : Type} [DecidableEq σ]
    (d : StateDescriptor σ κ) (o : Owner σ) (nm : String)
    (cur : Option σ) (new : σ)
    (hstore : d.state_storage = none) (hattr : d.attr_name = some nm)
    (hcur : d.get_state o = .ok cur) :
    d.force_set_state o new =
      .ok ({ o with attr := some new },
        (match cur with
         | some s => d.exit_state_callbacks s
         | none => []).map (fun c => CallbackEvent.mk c cur new)
        ++ (d.enter_state_callbacks new).map
            (fun c => CallbackEvent.mk c cur new)) := by
  unfold StateDescriptor.force_set_state
  rw [hcur, hstore, hattr]

/-! ## Claims -/

/-- C1: for every state `s` in a Transition's declared sources (the case
`s = destination` included), invoking the Transition on an owner whose
current state is `s` sets the state to the destination and fires, in this
order: every exit callback registered for `s`, then every enter callback
registered for the destination, then the Transition's own callbacks in
registration order, each with the `(owner, s, destination)` arguments (the
owner is the invocation's single instance; the event trace records the
`(callback, s, destination)` part). -/
theorem transition_in_sources_fires_in_order {σ κ : Type} [DecidableEq σ]
    (d : StateDescriptor σ κ) (t : StateTransition σ κ) (o : Owner σ)
    (nm : String) (s : σ)
    (hstore : d.state_storage = none) (hattr : d.attr_name = some nm)
    (hcur : d.get_state o = .ok (some s)) (hsrc : s ∈ t.source) :
    invokeTransition d t o =
      .ok ({ o with attr := some t.dest },
        (d.exit_state_callbacks s).map
          (fun c => CallbackEvent.mk c (some s) t.dest)
        ++ (d.enter_state_callbacks t.dest).map
          (fun c => CallbackEvent.mk c (some s) t.dest)
        ++ t.callbacks.map (fun c => CallbackEvent.mk c (some s) t.dest))
      ∧ d.get_state { o with attr := some t.dest } = .ok (some t.dest) := by
  have hforce := force_set_state_attr d o nm (some s) t.dest hstore hattr hcur
  constructor
  · simp only [invokeTransition, hcur]
    rw [hforce]
    simp [hsrc, List.append_assoc]
  · simp only [StateDescriptor.get_state, hstore, hattr]
    rfl

/-- Witness for C1: the fixture machine at current state `0` (attribute
unset, initial `0`), transition `0 → 1`: state becomes `1`; the trace is
exit callbacks `20, 21` of state `0`, enter callback `10` of state `1`,
then transition callbacks `30, 31`, each with `(0, 1)`. -/
theorem transition_in_sources_fires_in_order_witness :
    invokeTransition exampleDescriptor exampleTransition ⟨none⟩ =
      .ok (⟨some 1⟩,
        [⟨20, some 0, 1⟩, ⟨21, some 0, 1⟩, ⟨10, some 0, 1⟩,
         ⟨30, some 0, 1⟩, ⟨31, some 0, 1⟩])
      ∧ exampleDescriptor.get_state ⟨some 1⟩ = .ok (some 1) := by
  have h := transition_in_sources_fires_in_order exampleDescriptor
    exampleTransition ⟨none⟩ "state" 0 rfl rfl rfl (by decide)
  simpa [exampleDescriptor, exampleTransition] using h

/-- C2: for every state `s` outside a Transition's sources, invoking the
Transition on an owner whose current state is `s` raises
`ImpossibleTransitionError`; the error is raised before any write or
callback, so the owner is unchanged and the event trace is empty (the
model returns an updated owner and a trace only on success). -/
theorem transition_outside_sources_raises {σ κ : Type} [DecidableEq σ]
    (d : StateDescriptor σ κ) (t : StateTransition σ κ) (o : Owner σ) (s : σ)
    (hcur : d.get_state o = .ok (some s)) (hsrc : s ∉ t.source) :
    invokeTransition d t o = .error .impossibleTransition := by
  simp only [invokeTransition, hcur]
  simp [hsrc]

/-- Witness for C2: the fixture machine at state `0`, self-loop transition
with sources `[1]`: the invocation raises `ImpossibleTransitionError`. -/
theorem transition_outside_sources_raises_witness :
    invokeTransition exampleDescriptor exampleSelfLoop ⟨none⟩ =
      .error .impossibleTransition :=
  transition_outside_sources_raises exampleDescriptor exampleSelfLoop
    ⟨none⟩ 0 rfl (by decide)

/-- C3 (code-bug evaluation): the constructor guard
`if initial_state is None == state_storage is None:` is a chained
comparison, so `StateDescriptor.__init__` accepts the call that supplies
both `initial_state` and `state_storage`, while the guard the code intends
(its own error message reads `Expected only one: initial_state or
state_storage`) rejects it. -/
theorem init_accepts_both_initial_and_storage :
    (StateDescriptor.init [0, 1, 2] (some 0) (some exampleExtStorage) :
      Except PyError (StateDescriptor Nat Nat)).isOk = true
    ∧ (StateDescriptor.initIntended [0, 1, 2] (some 0)
        (some exampleExtStorage) :
      Except PyError (StateDescriptor Nat Nat)).isOk = false :=
  ⟨rfl, rfl⟩

/-- C4: invoking a dispatched method reads the owner's current state,
invokes the handler registered for that state when one is registered and
the fallback handler otherwise, passing `(owner, args)`, and returns that
handler's result unmodified. -/
theorem dispatch_resolves_overload_or_fallback {σ κ α β : Type}
    [DecidableEq σ]
    (dp : StateDispatcher σ κ (Owner σ → α → β)) (o : Owner σ) (args : α)
    (s : σ)
    (hcur : dp.state_storage.get_state o = .ok (some s)) :
    (∀ G, dp.dispatch_table.lookup s = some G →
        dp.dispatch o args = .ok (o, G o args))
    ∧ (dp.dispatch_table.lookup s = none →
        dp.dispatch o args = .ok (o, dp.fallback o args)) := by
  constructor
  · intro G hG
    simp [StateDispatcher.dispatch, hcur,
      StateDispatcher.get_dispatched_func, hG]
  · intro hG
    simp [StateDispatcher.dispatch, hcur,
      StateDispatcher.get_dispatched_func, hG]

/-- Witness for C4: the fixture dispatcher (overload `n + 1` at state `1`,
fallback `n + 100`) dispatches to the overload at state `1` and to the
fallback at state `0`. -/
theorem dispatch_resolves_overload_or_fallback_witness :
    exampleDispatcher.dispatch ⟨some 1⟩ 5 = .ok (⟨some 1⟩, 6)
    ∧ exampleDispatcher.dispatch ⟨none⟩ 5 = .ok (⟨none⟩, 105) := by
  constructor
  · have h := (dispatch_resolves_overload_or_fallback exampleDispatcher
      ⟨some 1⟩ 5 1 rfl).1 exampleOverload rfl
    simpa [exampleOverload] using h
  · have h := (dispatch_resolves_overload_or_fallback exampleDispatcher
      ⟨none⟩ 5 0 rfl).2 rfl
    simpa [exampleFallback] using h

/-- A state that fails `register`'s checks (foreign to the State Set, or
already bound in the incoming table) keeps its incoming binding through the
whole registration loop. -/
theorem registerLoop_keeps_failing_state {σ H : Type} [DecidableEq σ]
    (all_states : List σ) (func : H) (states : List σ) :
    ∀ (table : List (σ × H)) (s : σ),
      (s ∉ all_states ∨ (table.lookup s).isSome = true) →
      ((registerLoop all_states func states table).1).lookup s
        = table.lookup s := by
  induction states with
  | nil =>
    intro table s _
    rfl
  | cons st rest ih =>
    intro table s hs
    by_cases h1 : st ∈ all_states
    · by_cases h2 : (table.lookup st).isSome = true
      · simp [registerLoop, h1, h2]
      · have htab : (table ++ [(st, func)]).lookup s = table.lookup s := by
          rw [lookup_append]
          rcases hs with hs | hs
          · have hne : (s == st) = false :=
              beq_eq_false_iff_ne.mpr fun h => hs (h ▸ h1)
            simp [List.lookup, hne]
          · rcases Option.isSome_iff_exists.mp hs with ⟨v, hv⟩
            simp [hv]
        have hs' : s ∉ all_states
            ∨ (((table ++ [(st, func)]).lookup s).isSome = true) := by
          rcases hs with hs | hs
          · exact Or.inl hs
          · exact Or.inr (htab ▸ hs)
        have hrec := ih (table ++ [(st, func)]) s hs'
        have hstep : registerLoop all_states func (st :: rest) table
            = registerLoop all_states func rest (table ++ [(st, func)]) := by
          simp [registerLoop, h1, h2]
        rw [hstep, hrec, htab]
    · simp [registerLoop, h1]

/-- Listing a state that is foreign to the State Set or already bound in
the incoming table makes the registration loop raise. -/
theorem registerLoop_fails_on_bad_state {σ H : Type} [DecidableEq σ]
    (all_states : List σ) (func : H) (states : List σ) :
    ∀ (table : List (σ × H)),
      (∃ s ∈ states, s ∉ all_states ∨ (table.lookup s).isSome = true) →
      ((registerLoop all_states func states table).2).isSome = true := by
  induction states with
  | nil =>
    intro table h
    rcases h with ⟨s, hmem, _⟩
    exact absurd hmem (List.not_mem_nil s)
  | cons st rest ih =>
    intro table h
    by_cases h1 : st ∈ all_states
    · by_cases h2 : (table.lookup st).isSome = true
      · simp [registerLoop, h1, h2]
      · rcases h with ⟨s, hmem, hbad⟩
        have hsrest : s ∈ rest := by
          rcases List.mem_cons.mp hmem with he | hr
          · subst he
            rcases hbad with hb | hb
            · exact absurd h1 hb
            · exact absurd hb h2
          · exact hr
        have hbad' : s ∉ all_states
            ∨ (((table ++ [(st, func)]).lookup s).isSome = true) := by
          rcases hbad with hb | hb
          · exact Or.inl hb
          · refine Or.inr ?_
            rw [lookup_append]
            rcases Option.isSome_iff_exists.mp hb with ⟨v, hv⟩
            simp [hv]
        have hres := ih (table ++ [(st, func)]) ⟨s, hsrest, hbad'⟩
        simpa [registerLoop, h1, h2] using hres
    · simp [registerLoop, h1]

/-- C5: registering a dispatch overload raises a `ValueError` whenever a
listed state is outside the State Set or already has a registered handler,
and such a state's table entry is untouched by the attempt (no silent
overwrite; the handler is not associated with the failing state). -/
theorem register_rejects_foreign_and_duplicate {σ κ H : Type}
    [DecidableEq σ]
    (dp : StateDispatcher σ κ H) (func : H) (states : List σ) :
    ((∃ s ∈ states, s ∉ dp.all_states
        ∨ (dp.dispatch_table.lookup s).isSome = true) →
      ((dp.register func states).2).isSome = true)
    ∧ (∀ s, (s ∉ dp.all_states
        ∨ (dp.dispatch_table.lookup s).isSome = true) →
      ((dp.register func states).1).dispatch_table.lookup s
        = dp.dispatch_table.lookup s) := by
  constructor
  · intro h
    exact registerLoop_fails_on_bad_state dp.all_states func states
      dp.dispatch_table h
  · intro s hs
    exact registerLoop_keeps_failing_state dp.all_states func states
      dp.dispatch_table s hs

/-- Witness for C5: re-registering state `1` (already overloaded in the
fixture dispatcher) raises and leaves the existing binding for `1` in
place. -/
theorem register_rejects_foreign_and_duplicate_witness :
    ((exampleDispatcher.register exampleFallback [1]).2).isSome = true
    ∧ ((exampleDispatcher.register exampleFallback [1]).1).dispatch_table.lookup 1
        = exampleDispatcher.dispatch_table.lookup 1 := by
  have h := register_rejects_foreign_and_duplicate exampleDispatcher
    exampleFallback [1]
  exact ⟨h.1 ⟨1, by decide, Or.inr rfl⟩, h.2 1 (Or.inr rfl)⟩

/-- C6: declaring a transition whose destination, or any source, is outside
the State Set raises a `ValueError` at declaration time; the `Except`
error result carries no created transition and no updated descriptor, so
nothing is stored. -/
theorem transition_declaration_rejects_foreign_states {σ κ : Type}
    [DecidableEq σ]
    (d : StateDescriptor σ κ) (source : List σ) (dest : σ)
    (h : dest ∉ d.all_states ∨ ∃ s ∈ source, s ∉ d.all_states) :
    isValueError (d.transition source dest) = true := by
  rcases h with h | ⟨s, hmem, hs⟩
  · simp [StateDescriptor.transition, h, isValueError]
  · by_cases hdest : dest ∈ d.all_states
    · have hex : ∃ x ∈ source, x ∉ d.all_states := ⟨s, hmem, hs⟩
      simp [StateDescriptor.transition, hdest, isValueError, hex]
    · simp [StateDescriptor.transition, hdest, isValueError]

/-- Witness for C6: declaring a transition of the fixture machine to the
foreign state `7` raises a `ValueError`. -/
theorem transition_declaration_rejects_foreign_states_witness :
    isValueError (exampleDescriptor.transition [0] 7) = true :=
  transition_declaration_rejects_foreign_states exampleDescriptor [0] 7
    (Or.inl (by decide))

/-- C7: direct assignment to the state accessor raises `AttributeError` for
every state machine, owner and value; the raise is the whole body of
`__set__`, so the owner's state cannot change (the model returns no owner). -/
theorem direct_assignment_always_raises {σ κ V : Type} [DecidableEq σ]
    (d : StateDescriptor σ κ) (o : Owner σ) (v : V) :
    d.set o v =
      .error (.attributeError "Cannot change state directly. Use transitions") :=
  rfl

/-- C8: with attribute-backed storage (bound descriptor, configured initial
state), reading never fails: it returns the attribute slot's value when the
slot was written and the configured initial value when no state was ever
written; after a successful transition the slot holds the destination, so
every subsequent read returns the destination until the next write. -/
theorem attribute_storage_reads {σ κ : Type} [DecidableEq σ]
    (d : StateDescriptor σ κ) (t : StateTransition σ κ) (o : Owner σ)
    (nm : String) (init : σ)
    (hstore : d.state_storage = none) (hattr : d.attr_name = some nm)
    (hinit : d.initial_state = some init) :
    d.get_state o = .ok (some (o.attr.getD init))
    ∧ (∀ o' evs, invokeTransition d t o = .ok (o', evs) →
        o'.attr = some t.dest ∧ d.get_state o' = .ok (some t.dest)) := by
  constructor
  · simp only [StateDescriptor.get_state, hstore, hattr, hinit]
    cases o.attr <;> rfl
  · intro o' evs hinv
    have hget : d.get_state o = .ok (o.attr.or d.initial_state) := by
      simp only [StateDescriptor.get_state, hstore, hattr]
    have hforce := force_set_state_attr d o nm (o.attr.or d.initial_state)
      t.dest hstore hattr hget
    unfold invokeTransition at hinv
    rw [hget] at hinv
    dsimp only [] at hinv
    split at hinv
    · rw [hforce] at hinv
      dsimp only [] at hinv
      simp only [Except.ok.injEq, Prod.mk.injEq] at hinv
      obtain ⟨h1, _⟩ := hinv
      constructor
      · rw [← h1]
      · rw [← h1]
        simp only [StateDescriptor.get_state, hstore, hattr]
        rfl
    · simp at hinv

/-- Witness for C8: fixture machine, attribute never written: reading gives
the configured initial state `0`; after the `0 → 1` transition, the slot is
`1` and reads return `1`. -/
theorem attribute_storage_reads_witness :
    exampleDescriptor.get_state ⟨none⟩ = .ok (some 0)
    ∧ (⟨some 1⟩ : Owner Nat).attr = some 1
    ∧ exampleDescriptor.get_state ⟨some 1⟩ = .ok (some 1) := by
  have h := attribute_storage_reads exampleDescriptor exampleTransition
    ⟨none⟩ "state" 0 rfl rfl rfl
  have h2 := h.2 ⟨some 1⟩
    [⟨20, some 0, 1⟩, ⟨21, some 0, 1⟩, ⟨10, some 0, 1⟩,
     ⟨30, some 0, 1⟩, ⟨31, some 0, 1⟩] rfl
  exact ⟨h.1, h2.1, h2.2⟩

/-- C9 counterexample: creating a transition on the unbound fixture
descriptor (no attribute name, no external storage) succeeds, refuting the
claim that transition creation fails before the descriptor is bound; the
source only validates State-Set membership there. -/
theorem unbound_transition_creation_succeeds :
    (unboundDescriptor.transition [0] 1).isOk = true := rfl

/-- C9 (amended): before binding (no attribute name, no external storage),
reading and writing the current state through the descriptor raise the
configuration `ValueError` (the write path raises it while reading the old
state), and invoking a transition raises it too; creating a transition,
however, succeeds whenever its states belong to the State Set. -/
theorem unbound_access_raises_but_creation_succeeds {σ κ : Type}
    [DecidableEq σ]
    (d : StateDescriptor σ κ) (o : Owner σ) (s : σ)
    (t : StateTransition σ κ)
    (hstore : d.state_storage = none) (hattr : d.attr_name = none) :
    d.get_state o
      = .error (.valueError "Cannot get state from unitialized descriptor")
    ∧ d.force_set_state o s
      = .error (.valueError "Cannot get state from unitialized descriptor")
    ∧ (∀ source dest, dest ∈ d.all_states →
        (∀ x ∈ source, x ∈ d.all_states) →
        (d.transition source dest).isOk = true)
    ∧ invokeTransition d t o
      = .error (.valueError "Cannot get state from unitialized descriptor") := by
  have hget : d.get_state o
      = .error (.valueError "Cannot get state from unitialized descriptor") := by
    simp only [StateDescriptor.get_state, hstore, hattr]
  refine ⟨hget, ?_, ?_, ?_⟩
  · unfold StateDescriptor.force_set_state
    rw [hget]
  · intro source dest hdest hsource
    have hno : ¬ ∃ x ∈ source, x ∉ d.all_states := by
      rintro ⟨x, hx, hxn⟩
      exact hxn (hsource x hx)
    simp [StateDescriptor.transition, hdest, hno, Except.isOk, Except.toBool]
  · unfold invokeTransition
    rw [hget]

/-- Witness for C9 (amended), at the unbound fixture descriptor. -/
theorem unbound_access_raises_but_creation_succeeds_witness :
    unboundDescriptor.get_state ⟨none⟩
      = .error (.valueError "Cannot get state from unitialized descriptor")
    ∧ unboundDescriptor.force_set_state ⟨none⟩ 1
      = .error (.valueError "Cannot get state from unitialized descriptor")
    ∧ (unboundDescriptor.transition [1] 2).isOk = true
    ∧ invokeTransition unboundDescriptor exampleTransition ⟨none⟩
      = .error (.valueError "Cannot get state from unitialized descriptor") := by
  have h := unbound_access_raises_but_creation_succeeds unboundDescriptor
    ⟨none⟩ 1 exampleTransition rfl rfl
  exact ⟨h.1, h.2.1, h.2.2.1 [1] 2 (by decide) (by decide), h.2.2.2⟩

/-- C10: invoking a dispatched method leaves the owner's state unchanged:
`dispatch` reads the current state through the shared proxy storage — whose
write capability `set_state` it never uses — and hands the owner to the
resolved handler, returning it as received. -/
theorem dispatch_preserves_state {σ κ α β : Type} [DecidableEq σ]
    (dp : StateDispatcher σ κ (Owner σ → α → β)) (o : Owner σ) (args : α)
    (r : Owner σ × β) (h : dp.dispatch o args = .ok r) :
    r.1 = o := by
  unfold StateDispatcher.dispatch at h
  cases hg : dp.state_storage.get_state o with
  | error e =>
    rw [hg] at h
    simp at h
  | ok cur =>
    rw [hg] at h
    exact (congrArg Prod.fst (Except.ok.inj h)).symm

/-- Witness for C10: the fixture dispatcher at state `1` returns the owner
it was given. -/
theorem dispatch_preserves_state_witness :
    ((⟨some 1⟩, 6) : Owner Nat × Nat).1 = (⟨some 1⟩ : Owner Nat) :=
  dispatch_preserves_state exampleDispatcher ⟨some 1⟩ 5 (⟨some 1⟩, 6) rfl
